import Mathlib

/-!
# Verification of `shortwave` transmission lifecycle and URI authority parsing

This development embeds the parts of the `nigelsmall/shortwave` repository that
the lifecycle and parsing claims are about:

* `src/shortwave/transmission/base.py` — `BaseTransmitter.transmit`,
  `BaseReceiver.stop` / `BaseReceiver.stopped`, and the `BaseTransceiver`
  shutdown protocol (`stop_tx`, `stop_rx`, `close`, `stopped`, `transmit`,
  the port-resolution line of `__init__`).
* `src/shortwave/uri/rfc3986.py` — `parse_authority`.

Python state is embedded as explicit state passing: a `BaseTransceiver` is a
record of its nullable references (socket handle, transmitter, receiver), its
per-method lock flags, and a ghost trace of the observable side effects (OS
socket calls, error-log records, hook invocations, payload deliveries).
Fallible calls return `Option PyExc × XState`: `none` models a normal Python
return, `some e` models an exception propagating to the caller.
-/

namespace Shortwave

/-- Errno constant `EBADF` (`from errno import EBADF` in
`src/shortwave/transmission/base.py`); the numeric value is the Linux one,
only membership in the benign pair matters. -/
def EBADF : Nat := 9

/-- Errno constant `ENOTCONN`. -/
def ENOTCONN : Nat := 107

/-- The test `error.errno in (EBADF, ENOTCONN)` used by the `except` clauses
of `stop_tx` and `stop_rx` in `base.py`. -/
def benign (e : Nat) : Bool := e == EBADF || e == ENOTCONN

/-- Observable side effects of the lifecycle methods, recorded in order:
OS-level socket calls (`shutdown(SHUT_WR)`, `shutdown(SHUT_RD)`,
`socket.close()`, `socket.sendall(payload)`), error-log records
(`log.error(...)` with the errno that was logged), and invocations of the
application hook `on_stop()`. -/
inductive Ev where
  | onStop : Ev
  | shutWr : Ev
  | shutRd : Ev
  | sockClose : Ev
  | logErr (errno : Nat) : Ev
  | send (payload : List Nat) : Ev
deriving DecidableEq, Repr

/-- Python exceptions that the embedded code can raise: `socket.error` with an
errno, `AttributeError` (attribute access on `None`), an arbitrary exception
raised by an overriding `on_stop()` hook, a call into a method whose
non-reentrant lock is already held by the caller (which would block forever in
Python), and exhaustion of the static call-depth budget (unreachable from the
public entry points). -/
inductive PyExc where
  | socketError (errno : Nat) : PyExc
  | attributeError : PyExc
  | hookError : PyExc
  | deadlock : PyExc
  | fuelOut : PyExc
deriving DecidableEq, Repr

/-- Behaviour of the external collaborators during one teardown/transmit
episode: for each OS socket call, `none` means the call succeeds and
`some e` means it raises `socket.error` with errno `e`; `onStopRaises` models
an overriding `on_stop()` hook that raises (the base-class hook is `pass` and
never raises, which corresponds to `onStopRaises = false`). Each of these OS
calls executes at most once per connection, so one result per call suffices. -/
structure Env where
  shutWrErr : Option Nat
  shutRdErr : Option Nat
  closeErr : Option Nat
  sendErr : Option Nat
  onStopRaises : Bool
deriving DecidableEq, Repr

/-- State of one `BaseTransceiver`: `socket`, `transmitter`, `receiver` are
`true` when the corresponding Python attribute is non-`None`; the three
`*Locked` flags model the per-method locks of the `@synchronized` decorator;
`events` is the ghost trace of observable effects. -/
structure XState where
  socket : Bool
  transmitter : Bool
  receiver : Bool
  txLocked : Bool
  rxLocked : Bool
  closeLocked : Bool
  events : List Ev
deriving DecidableEq, Repr

/-- `BaseTransceiver.stopped`: `return not self.transmitter and not self.receiver`. -/
def stopped (s : XState) : Bool := !s.transmitter && !s.receiver

/-- The state of a `BaseTransceiver` right after `__init__` succeeds: socket
connected, transmitter built, receiver attached, no lock held. -/
def initState : XState :=
  { socket := true, transmitter := true, receiver := true,
    txLocked := false, rxLocked := false, closeLocked := false, events := [] }

/-- The body of the `except socket_error` clauses of `stop_tx`/`stop_rx`:
`if error.errno not in (EBADF, ENOTCONN): log.error(...)`. A benign errno
produces no record, any other errno produces one `logErr` record. -/
def optLog (r : Option Nat) : List Ev :=
  match r with
  | none => []
  | some e => if benign e then [] else [Ev.logErr e]

/-- The `except socket_error` handler of `stop_tx` and `stop_rx`: a
`socket.error` is swallowed (logged when its errno is not benign); any other
exception, or a normal return, passes through unchanged. -/
def handleSockExcLog (r : Option PyExc) (s : XState) : Option PyExc × XState :=
  match r with
  | some (.socketError e) => (none, { s with events := s.events ++ optLog (some e) })
  | r => (r, s)

/-- The `except socket_error: pass` handler of `close`: every `socket.error`
is swallowed silently, nothing is logged; other exceptions pass through. -/
def swallowAllSock (r : Option PyExc) : Option PyExc :=
  match r with
  | some (.socketError _) => none
  | r => r

/-- Python `try`/`finally` exception combination: an exception raised by the
`finally` block replaces any pending exception from the `try` block. -/
def overrideExc (fin pend : Option PyExc) : Option PyExc :=
  match fin with
  | some e => some e
  | none => pend

/-- `self.socket.shutdown(SHUT_WR)`: raises `AttributeError` when the socket
attribute is `None`, otherwise performs the OS call (recorded) and raises
`socket.error` with the errno chosen by the environment, if any. -/
def shutdownWr (env : Env) (s : XState) : Option PyExc × XState :=
  if s.socket then
    ((env.shutWrErr).map PyExc.socketError, { s with events := s.events ++ [Ev.shutWr] })
  else (some PyExc.attributeError, s)

/-- `self.socket.shutdown(SHUT_RD)`; see `shutdownWr`. -/
def shutdownRd (env : Env) (s : XState) : Option PyExc × XState :=
  if s.socket then
    ((env.shutRdErr).map PyExc.socketError, { s with events := s.events ++ [Ev.shutRd] })
  else (some PyExc.attributeError, s)

/-- `self.socket.close()`; see `shutdownWr`. -/
def osClose (env : Env) (s : XState) : Option PyExc × XState :=
  if s.socket then
    ((env.closeErr).map PyExc.socketError, { s with events := s.events ++ [Ev.sockClose] })
  else (some PyExc.attributeError, s)

/-- `self.on_stop()`: the invocation is recorded; the base-class hook
(`def on_stop(self): pass`) returns normally, an overriding hook may raise,
as chosen by `env.onStopRaises`. -/
def onStopCall (env : Env) (s : XState) : Option PyExc × XState :=
  (if env.onStopRaises then some PyExc.hookError else none,
   { s with events := s.events ++ [Ev.onStop] })

/-- Modelled from the spec: the `@synchronized` decorator comes from
`shortwave.concurrency`, which is not under `src/`; per the spec (§5, §9) it
gives each decorated method its own non-reentrant lock with a `.locked()`
probe. We model each lock as a boolean flag on `XState`, set for the duration
of the call and released on every exit path (normal or exceptional, as a
`with lock:` body behaves); a call on a method whose own lock is already held
would block forever and is marked by the `deadlock` result.

The remainder of this definition transcribes `BaseTransceiver.stop_tx` from
`src/shortwave/transmission/base.py`; the nested call `self.close()` is the
parameter `closeK`. -/
def stop_txBody (closeK : XState → Option PyExc × XState) (env : Env)
    (s : XState) : Option PyExc × XState :=
  if s.txLocked then (some PyExc.deadlock, s) else
  let s := { s with txLocked := true }
  if s.transmitter then
    let r1 := shutdownWr env s
    let h1 := handleSockExcLog r1.1 r1.2
    let s2 := { h1.2 with transmitter := false }
    let r2 := if stopped s2 && !s2.closeLocked then closeK s2 else (none, s2)
    (overrideExc r2.1 h1.1, { r2.2 with txLocked := false })
  else
    (none, { s with txLocked := false })

/-- Modelled from the spec: lock discipline as in `stop_txBody` (the
`@synchronized` source is not under `src/`). The remainder transcribes
`BaseTransceiver.stop_rx`: `try: self.on_stop() finally:` a nested
`try: self.socket.shutdown(SHUT_RD) except socket_error: ... finally:
self.receiver = None` plus the auto-close trigger; `closeK` is `self.close()`. -/
def stop_rxBody (closeK : XState → Option PyExc × XState) (env : Env)
    (s : XState) : Option PyExc × XState :=
  if s.rxLocked then (some PyExc.deadlock, s) else
  let s := { s with rxLocked := true }
  if s.receiver then
    let rh := onStopCall env s
    let r1 := shutdownRd env rh.2
    let h1 := handleSockExcLog r1.1 r1.2
    let s2 := { h1.2 with receiver := false }
    let r2 := if stopped s2 && !s2.closeLocked then closeK s2 else (none, s2)
    (overrideExc (overrideExc r2.1 h1.1) rh.1, { r2.2 with rxLocked := false })
  else
    (none, { s with rxLocked := false })

/-- Modelled from the spec: lock discipline as in `stop_txBody` (the
`@synchronized` source is not under `src/`); `self.stop_tx.locked()` and
`self.stop_rx.locked()` read the corresponding flags. The remainder
transcribes `BaseTransceiver.close`: call `stop_tx` and `stop_rx` unless each
is already in progress (an exception from either propagates at once), then
`try: self.socket.close() except socket_error: pass finally: self.socket = None`. -/
def closeBody (stop_txK stop_rxK : XState → Option PyExc × XState) (env : Env)
    (s : XState) : Option PyExc × XState :=
  if s.closeLocked then (some PyExc.deadlock, s) else
  let s := { s with closeLocked := true }
  if s.socket then
    match (if !s.txLocked then stop_txK s else (none, s)) with
    | (some e, sA) => (some e, { sA with closeLocked := false })
    | (none, sA) =>
      match (if !sA.rxLocked then stop_rxK sA else (none, sA)) with
      | (some e, sB) => (some e, { sB with closeLocked := false })
      | (none, sB) =>
        let rC := osClose env sB
        (swallowAllSock rC.1, { rC.2 with socket := false, closeLocked := false })
  else
    (none, { s with closeLocked := false })

/-- Call-depth budget exhausted. The mutual nesting of `stop_tx`, `stop_rx`
and `close` is statically bounded by the lock guards (no chain is deeper than
three), so from the public entry points below this leaf is never reached. -/
def noFuelOp : XState → Option PyExc × XState := fun s => (some PyExc.fuelOut, s)

/-- `close` with no further nesting allowed. -/
def close1 (env : Env) : XState → Option PyExc × XState :=
  closeBody noFuelOp noFuelOp env

/-- `stop_tx` with no further nesting allowed. -/
def stop_tx1 (env : Env) : XState → Option PyExc × XState :=
  stop_txBody noFuelOp env

/-- `stop_rx` with no further nesting allowed. -/
def stop_rx1 (env : Env) : XState → Option PyExc × XState :=
  stop_rxBody noFuelOp env

/-- `stop_tx` at nesting depth two. -/
def stop_tx2 (env : Env) : XState → Option PyExc × XState :=
  stop_txBody (close1 env) env

/-- `stop_rx` at nesting depth two. -/
def stop_rx2 (env : Env) : XState → Option PyExc × XState :=
  stop_rxBody (close1 env) env

/-- `close` at nesting depth three. -/
def close3 (env : Env) : XState → Option PyExc × XState :=
  closeBody (stop_tx2 env) (stop_rx2 env) env

/-- `stop_tx` at nesting depth three. -/
def stop_tx3 (env : Env) : XState → Option PyExc × XState :=
  stop_txBody (close1 env) env

/-- `stop_rx` at nesting depth three. -/
def stop_rx3 (env : Env) : XState → Option PyExc × XState :=
  stop_rxBody (close1 env) env

/-- Public `BaseTransceiver.stop_tx`. -/
def stop_tx (env : Env) (s : XState) : Option PyExc × XState :=
  stop_txBody (close3 env) env s

/-- Public `BaseTransceiver.stop_rx`. -/
def stop_rx (env : Env) (s : XState) : Option PyExc × XState :=
  stop_rxBody (close3 env) env s

/-- Public `BaseTransceiver.close`. -/
def close (env : Env) (s : XState) : Option PyExc × XState :=
  closeBody (stop_tx3 env) (stop_rx3 env) env s

/-- `socket.sendall(payload)` as documented by the Python standard library:
either the whole payload is handed to the OS send buffer (recorded as one
`send` event), or `socket.error` is raised. The Transmitter keeps its own
reference to the socket object, so this does not consult `s.socket`. -/
def sendall (env : Env) (payload : List Nat) (s : XState) : Option PyExc × XState :=
  match env.sendErr with
  | none => (none, { s with events := s.events ++ [Ev.send payload] })
  | some e => (some (PyExc.socketError e), s)

/-- `BaseTransmitter.transmit(*data)`: `joined = b"".join(data)`, a diagnostic
log record, then `self.socket.sendall(joined)`. Byte strings are embedded as
`List Nat`, the chunk tuple as a `List` of them; `b"".join` is `List.join`. -/
def transmitter_transmit (env : Env) (data : List (List Nat)) (s : XState) :
    Option PyExc × XState :=
  sendall env data.flatten s

/-- `BaseTransceiver.transmit(*data)`: `self.transmitter.transmit(*data)`;
when `self.transmitter` is `None`, the attribute access raises
`AttributeError` before anything reaches the socket. -/
def transmit (env : Env) (data : List (List Nat)) (s : XState) :
    Option PyExc × XState :=
  if s.transmitter then transmitter_transmit env data s
  else (some PyExc.attributeError, s)

/-- Iterate a lifecycle operation `n` times from `s`, following the state
(exceptions escape to the caller and do not stop a later call). -/
def applyN (f : XState → Option PyExc × XState) : Nat → XState → XState
  | 0, s => s
  | n + 1, s => applyN f n (f s).2

/-- State of one `BaseReceiver` as far as the lifecycle claims reach: the
class attribute `_stopped` (initially `False`). The clients registry and the
thread machinery play no part in the claims settled here. -/
structure BReceiver where
  stoppedFlag : Bool
deriving DecidableEq, Repr

/-- `BaseReceiver.stop` (decorated with `@synchronized`; in a sequential
episode the lock has no observable effect beyond mutual exclusion):
`if not self._stopped: log...; self._stopped = True`. -/
def BReceiver.stop (r : BReceiver) : BReceiver :=
  if r.stoppedFlag then r else { stoppedFlag := true }

/-- `BaseReceiver.stopped`: `return self._stopped` — the method as defined on
the class, i.e. before any instance-level rebinding. -/
def BReceiver.stoppedM (r : BReceiver) : Bool := r.stoppedFlag

/-- A `BaseTransceiver` together with the `BaseReceiver` it created privately
in `__init__` (the `receiver=None` branch). -/
structure PrivateRxPair where
  x : XState
  rx : BReceiver
deriving DecidableEq, Repr

/-- The `stopped` attribute of a privately created receiver after
`__init__` ran `self.receiver.stopped = lambda: self.stopped()`: it is the
owning transceiver's `stopped`, not the receiver's own method. -/
def privateRxStopped (t : PrivateRxPair) : Bool := stopped t.x

/-! ## `parse_authority` from `src/shortwave/uri/rfc3986.py`

Byte strings are embedded as `List Char` (the authority inputs the claims
concern are ASCII, where Python `bytes` and this embedding agree index for
index). Python's `-1`-sentinel index results are kept as `Int`. -/

/-- Python `bytes.rfind(c)`: the highest index at which `c` occurs, `-1` when
it does not occur. -/
def pyRFind (s : List Char) (c : Char) : Int :=
  match s with
  | [] => -1
  | x :: xs =>
    let r := pyRFind xs c
    if r = -1 then (if x = c then 0 else -1) else r + 1

/-- Python `bytes.find(c)`: the lowest index at which `c` occurs, `-1` when it
does not occur. -/
def pyFind (s : List Char) (c : Char) : Int :=
  match s with
  | [] => -1
  | x :: xs =>
    if x = c then 0
    else
      let r := pyFind xs c
      if r = -1 then -1 else r + 1

/-- Python `bytes.find(c, start)`: the lowest index `≥ start` at which `c`
occurs, `-1` when there is none (indices are absolute). -/
def pyFindFrom (s : List Char) (c : Char) (start : Nat) : Int :=
  let r := pyFind (s.drop start) c
  if r = -1 then -1 else start + r

/-- Decimal value of a digit string. -/
def decVal (s : List Char) : Nat :=
  s.foldl (fun a c => 10 * a + (c.toNat - '0'.toNat)) 0

/-- Python `int(b)` restricted to the inputs `parse_authority` is claimed on:
a non-empty string of ASCII digits yields its decimal value; anything else is
treated as `ValueError` (`none`). (Python also accepts signs and surrounding
whitespace, which no claim here exercises.) -/
def pyIntDec (s : List Char) : Option Nat :=
  if s ≠ [] && s.all Char.isDigit then some (decVal s) else none

/-- `parse_authority(authority)` from `src/shortwave/uri/rfc3986.py`:
`p = authority.rfind(b"@")`; user info is `authority[:p]` when `p != -1`;
`p += 1`; `q = authority.find(b":", p)`; host is `authority[p:]` when
`q == -1`, else `authority[p:q]` with `port = int(authority[q+1:])`. The
outer `Option` is `none` exactly when `int` raises `ValueError`; a `None`
argument returns `(None, None, None)`. -/
def parse_authority (authority : Option (List Char)) :
    Option (Option (List Char) × Option (List Char) × Option Nat) :=
  match authority with
  | none => some (none, none, none)
  | some a =>
    let p := pyRFind a '@'
    let user_info : Option (List Char) :=
      if p = -1 then none else some (a.take p.toNat)
    let p1 : Nat := (p + 1).toNat
    let q := pyFindFrom a ':' p1
    if q = -1 then some (user_info, some (a.drop p1), none)
    else
      match pyIntDec (a.drop (q.toNat + 1)) with
      | none => none
      | some n => some (user_info, some ((a.take q.toNat).drop p1), some n)

/-! ## Port resolution in `BaseTransceiver.__init__` -/

/-- Python `a or b` for two ints: `0` is falsy. -/
def pyOrInt (a b : Nat) : Nat := if a = 0 then b else a

/-- Python `a or b` where `a` is `None` or an int: `None` and `0` are falsy. -/
def pyOrOptInt (a : Option Nat) (b : Nat) : Nat :=
  match a with
  | none => b
  | some v => pyOrInt v b

/-- The class attribute `BaseTransceiver.default_port = 0`. -/
def base_default_port : Nat := 0

/-- `self.port = port or default_port or self.default_port` from
`BaseTransceiver.__init__`, with `port` the value returned by
`parse_authority`, `default_port` the constructor argument and `cls_default`
the class attribute (`0` on `BaseTransceiver`, overridden by subclasses). -/
def resolve_port (parsed : Option Nat) (default_port cls_default : Nat) : Nat :=
  pyOrInt (pyOrOptInt parsed default_port) cls_default

/-! ## Characterization lemmas for the lifecycle operations -/

/-- `stop_tx` is a no-op when the transmitter reference is already null. -/
theorem stop_tx_noop (env : Env) (s : XState) (hT : s.txLocked = false)
    (hM : s.transmitter = false) : stop_tx env s = (none, s) := by
  obtain ⟨sock, tx, rx, tl, rl, cl, ev⟩ := s
  simp only at hT hM
  subst hT hM
  simp [stop_tx, stop_txBody]

/-- `stop_rx` is a no-op when the receiver reference is already null. -/
theorem stop_rx_noop (env : Env) (s : XState) (hR : s.rxLocked = false)
    (hr : s.receiver = false) : stop_rx env s = (none, s) := by
  obtain ⟨sock, tx, rx, tl, rl, cl, ev⟩ := s
  simp only at hR hr
  subst hR hr
  simp [stop_rx, stop_rxBody]

/-- `close` is a no-op when the socket handle is already null. -/
theorem close_noop (env : Env) (s : XState) (hC : s.closeLocked = false)
    (hS : s.socket = false) : close env s = (none, s) := by
  obtain ⟨sock, tx, rx, tl, rl, cl, ev⟩ := s
  simp only at hC hS
  subst hC hS
  simp [close, closeBody]

/-- Full behaviour of a public `stop_tx` call on a live transmit side: the
write direction is shut down (any `socket.error` swallowed, non-benign errnos
logged), the transmitter reference is cleared, and when the receiver reference
is already null the auto-close runs (the hook is not re-invoked, the socket is
closed and cleared). -/
theorem stop_tx_char (env : Env) (s : XState) (hT : s.txLocked = false)
    (hR : s.rxLocked = false) (hC : s.closeLocked = false)
    (hS : s.socket = true) (hM : s.transmitter = true) :
    stop_tx env s =
      (none,
       if s.receiver then
         { s with transmitter := false,
                  events := s.events ++ [Ev.shutWr] ++ optLog env.shutWrErr }
       else
         { s with transmitter := false, socket := false,
                  events := s.events ++ [Ev.shutWr] ++ optLog env.shutWrErr
                              ++ [Ev.sockClose] }) := by
  obtain ⟨sock, tx, rx, tl, rl, cl, ev⟩ := s
  simp only at hT hR hC hS hM
  subst hT hR hC hS hM
  rcases env with ⟨wr, rd, ce, se, hk⟩
  cases rx <;>
    rcases wr with _ | e <;>
      rcases ce with _ | e' <;>
        simp [stop_tx, stop_txBody, close3, closeBody, stop_tx2, stop_rx2,
              stop_rxBody, close1, stop_tx1, stop_rx1, noFuelOp, shutdownWr,
              shutdownRd, osClose, onStopCall, handleSockExcLog,
              swallowAllSock, overrideExc, stopped, optLog]

/-- Full behaviour of a public `stop_rx` call on a live receive side: the
`on_stop` hook is invoked first, then the read direction is shut down, then
the receiver reference is cleared — also when the hook raises, in which case
the hook's exception is re-raised at the end; when the transmitter reference
is already null the auto-close runs. -/
theorem stop_rx_char (env : Env) (s : XState) (hT : s.txLocked = false)
    (hR : s.rxLocked = false) (hC : s.closeLocked = false)
    (hS : s.socket = true) (hr : s.receiver = true) :
    stop_rx env s =
      (if env.onStopRaises then some PyExc.hookError else none,
       if s.transmitter then
         { s with receiver := false,
                  events := s.events ++ [Ev.onStop, Ev.shutRd]
                              ++ optLog env.shutRdErr }
       else
         { s with receiver := false, socket := false,
                  events := s.events ++ [Ev.onStop, Ev.shutRd]
                              ++ optLog env.shutRdErr ++ [Ev.sockClose] }) := by
  obtain ⟨sock, tx, rx, tl, rl, cl, ev⟩ := s
  simp only at hT hR hC hS hr
  subst hT hR hC hS hr
  rcases env with ⟨wr, rd, ce, se, hk⟩
  cases tx <;> cases hk <;>
    rcases rd with _ | e <;>
      rcases ce with _ | e' <;>
        simp [stop_rx, stop_rxBody, close3, closeBody, stop_tx2, stop_rx2,
              stop_txBody, close1, stop_tx1, stop_rx1, noFuelOp, shutdownWr,
              shutdownRd, osClose, onStopCall, handleSockExcLog,
              swallowAllSock, overrideExc, stopped, optLog]

/-- Full behaviour of a public `close` call on an open socket: `stop_tx` and
`stop_rx` are run for whichever side is still live, then the socket is closed
(every `socket.error` from `socket.close()` swallowed silently) and the handle
cleared — except that when the receive side is live and its `on_stop` hook
raises, the exception propagates out of `close` before `socket.close()` runs,
leaving the handle set. -/
theorem close_char (env : Env) (s : XState) (hT : s.txLocked = false)
    (hR : s.rxLocked = false) (hC : s.closeLocked = false)
    (hS : s.socket = true) :
    close env s =
      (if env.onStopRaises && s.receiver then some PyExc.hookError else none,
       if env.onStopRaises && s.receiver then
         { s with transmitter := false, receiver := false,
                  events := s.events
                    ++ (if s.transmitter then [Ev.shutWr] ++ optLog env.shutWrErr else [])
                    ++ [Ev.onStop, Ev.shutRd] ++ optLog env.shutRdErr }
       else
         { s with transmitter := false, receiver := false, socket := false,
                  events := s.events
                    ++ (if s.transmitter then [Ev.shutWr] ++ optLog env.shutWrErr else [])
                    ++ (if s.receiver then [Ev.onStop, Ev.shutRd] ++ optLog env.shutRdErr else [])
                    ++ [Ev.sockClose] }) := by
  obtain ⟨sock, tx, rx, tl, rl, cl, ev⟩ := s
  simp only at hT hR hC hS
  subst hT hR hC hS
  rcases env with ⟨wr, rd, ce, se, hk⟩
  cases tx <;> cases rx <;> cases hk <;>
    rcases wr with _ | e <;>
      rcases rd with _ | e' <;>
        rcases ce with _ | e'' <;>
          simp [close, closeBody, stop_tx3, stop_rx3, stop_txBody, stop_rxBody,
                close1, stop_tx1, stop_rx1, noFuelOp, shutdownWr,
                shutdownRd, osClose, onStopCall, handleSockExcLog,
                swallowAllSock, overrideExc, stopped, optLog]

/-- A lifecycle operation with a fixed state changes nothing however often it
is repeated. -/
theorem applyN_of_fixed (f : XState → Option PyExc × XState) (t : XState)
    (h : (f t).2 = t) : ∀ k, applyN f k t = t
  | 0 => rfl
  | k + 1 => by rw [applyN, h, applyN_of_fixed f t h k]

/-- The terminal (`Closed`) state a fresh connection reaches when `close`
completes: every reference null, one trace of each teardown step. -/
def closedState (env : Env) : XState :=
  { socket := false, transmitter := false, receiver := false,
    txLocked := false, rxLocked := false, closeLocked := false,
    events := ([Ev.shutWr] ++ optLog env.shutWrErr)
                ++ ([Ev.onStop, Ev.shutRd] ++ optLog env.shutRdErr)
                ++ [Ev.sockClose] }

/-- `close` on a freshly constructed transceiver returns normally and reaches
`closedState` (when the `on_stop` hook does not raise). -/
theorem close_init (env : Env) (hk : env.onStopRaises = false) :
    close env initState = (none, closedState env) := by
  rw [close_char env initState rfl rfl rfl rfl]
  simp [initState, closedState, hk]

/-- No error-log record is an `onStop`, `shutRd`, `shutWr` or `sockClose`
trace, so `optLog` never contributes to those counts. -/
theorem count_optLog (r : Option Nat) (x : Ev) (hx : ∀ e, x ≠ Ev.logErr e) :
    (optLog r).count x = 0 := by
  rcases r with _ | e
  · simp [optLog]
  · simp only [optLog]
    split
    · simp
    · simp [List.count_cons, hx e]

/-! ## Claim theorems -/

/-- C1: calling `close()` any number of times on a fresh connection results in
exactly one execution of the underlying `socket.close()` and leaves the
transceiver in the `Closed` state (socket handle null); `Closed` is terminal:
once `close()` has completed, further `stop_tx()`, `stop_rx()` or `close()`
calls return the state unchanged and perform no further socket operations
(the trace is unchanged). The base `on_stop` hook is a no-op, which is the
hypothesis on the environment. -/
theorem close_any_number_terminal (env : Env) (hk : env.onStopRaises = false)
    (n : Nat) (hn : 1 ≤ n) :
    applyN (close env) n initState = closedState env ∧
    (closedState env).socket = false ∧
    (closedState env).events.count Ev.sockClose = 1 ∧
    close env (closedState env) = (none, closedState env) ∧
    stop_tx env (closedState env) = (none, closedState env) ∧
    stop_rx env (closedState env) = (none, closedState env) := by
  have hcn := close_noop env (closedState env) rfl rfl
  refine ⟨?_, rfl, ?_, hcn, stop_tx_noop env _ rfl rfl, stop_rx_noop env _ rfl rfl⟩
  · obtain ⟨m, rfl⟩ : ∃ m, n = m + 1 := ⟨n - 1, by omega⟩
    rw [applyN, close_init env hk]
    exact applyN_of_fixed _ _ (by rw [hcn]) m
  · have h1 := count_optLog env.shutWrErr Ev.sockClose (fun e => by simp)
    have h2 := count_optLog env.shutRdErr Ev.sockClose (fun e => by simp)
    simp [closedState, List.count_append, h1, h2, List.count_cons]

/-- C1 witness at a concrete environment and `n = 2`. -/
theorem close_any_number_terminal_w :
    applyN (close (Env.mk none none none none false)) 2 initState
      = closedState (Env.mk none none none none false) :=
  (close_any_number_terminal ⟨none, none, none, none, false⟩ rfl 2 (by decide)).1

/-- C2: `transmit(d1, ..., dn)` concatenates the byte chunks in argument
order into one payload (`b"".join`) and hands it to `socket.sendall`, which
either delivers the entire payload (one `send` trace of the whole flattened
payload, state otherwise unchanged) or raises the I/O error synchronously to
the caller, delivering nothing; the transceiver-level `transmit` delegates to
the transmitter when its reference is live. -/
theorem transmit_all_or_error (env : Env) (data : List (List Nat)) (s : XState) :
    (env.sendErr = none →
       transmitter_transmit env data s =
         (none, { s with events := s.events ++ [Ev.send data.flatten] })) ∧
    (∀ e, env.sendErr = some e →
       transmitter_transmit env data s = (some (PyExc.socketError e), s)) ∧
    (s.transmitter = true →
       transmit env data s = transmitter_transmit env data s) := by
  refine ⟨fun h => ?_, fun e h => ?_, fun h => ?_⟩ <;>
    simp [transmit, transmitter_transmit, sendall, h]

/-- C2 witness at a concrete environment, chunk list and state. -/
theorem transmit_all_or_error_w :
    transmitter_transmit (Env.mk none none none none false) [[1, 2], [3]] initState
      = (none, { initState with events := [Ev.send [1, 2, 3]] }) :=
  (transmit_all_or_error ⟨none, none, none, none, false⟩ [[1, 2], [3]] initState).1 rfl

/-- C7: `stopped()` returns true exactly when both the transmitter reference
and the receiver reference are null. -/
theorem stopped_iff_refs_null (s : XState) :
    stopped s = true ↔ (s.transmitter = false ∧ s.receiver = false) := by
  simp [stopped]

/-- C10: the effective port of a constructed transceiver is the port parsed
from the authority when present and non-zero, else the `default_port`
constructor argument when non-zero, else the class-level `default_port`
(`0` on `BaseTransceiver` itself); in particular an explicit port of `0`
behaves exactly like an absent port. -/
theorem port_resolution (parsed : Option Nat) (d c : Nat) :
    resolve_port parsed d c =
      (match parsed with
       | some v => if v ≠ 0 then v else if d ≠ 0 then d else c
       | none => if d ≠ 0 then d else c) ∧
    resolve_port (some 0) d c = resolve_port none d c ∧
    base_default_port = 0 := by
  refine ⟨?_, by simp [resolve_port, pyOrOptInt, pyOrInt], rfl⟩
  rcases parsed with _ | v
  · by_cases hd : d = 0 <;> simp [resolve_port, pyOrOptInt, pyOrInt, hd]
  · by_cases hv : v = 0 <;> by_cases hd : d = 0 <;>
      simp [resolve_port, pyOrOptInt, pyOrInt, hv, hd]

/-- C9 counterexample: on a freshly constructed transceiver with a privately
created receiver, calling the receiver's `stop()` sets its `_stopped` flag,
yet its `stopped()` — which `__init__` rebound to the transceiver's own
`stopped()` — still returns `false`, because the transceiver's transmitter and
receiver references are both live. So `stopped()` does not report whether
`stop()` has been called on a privately created receiver. -/
theorem receiver_stopped_cex :
    ((BReceiver.mk false).stop).stoppedFlag = true ∧
    privateRxStopped (PrivateRxPair.mk initState ((BReceiver.mk false).stop)) = false := by
  decide

/-- C9 (amended): `BaseReceiver.stop()` is idempotent and sets the `_stopped`
flag, and the class-level `stopped()` method reports exactly whether `stop()`
has been called (`false` on a fresh receiver, `true` after any `stop()`); but
on a privately created receiver the transceiver rebinds `stopped()` to its own
`stopped()`, which reports whether the transceiver's transmitter and receiver
references are null, not whether `stop()` was called. -/
theorem receiver_stop_stopped (r : BReceiver) (t : PrivateRxPair) :
    (r.stop).stoppedFlag = true ∧
    r.stop.stop = r.stop ∧
    (BReceiver.mk false).stoppedM = false ∧
    (r.stop).stoppedM = true ∧
    privateRxStopped t = stopped t.x := by
  obtain ⟨f⟩ := r
  cases f <;> simp [BReceiver.stop, BReceiver.stoppedM, privateRxStopped]

/-- C3: `stop_rx()` on a transceiver whose receiver reference is live first
invokes `on_stop()`, then shuts down the socket's receive direction, then
clears the receiver reference (trace order `onStop`, `shutRd`); this happens
— and an auto-close is triggered when the transceiver is then fully stopped —
even when the hook raises, in which case the hook's exception is re-raised
after the cleanup; the hook runs exactly once per connection: a repeated
`stop_rx()` changes nothing. -/
theorem stop_rx_hook_then_shutdown (env : Env) (s : XState)
    (hT : s.txLocked = false) (hR : s.rxLocked = false)
    (hC : s.closeLocked = false) (hS : s.socket = true)
    (hr : s.receiver = true) :
    ((stop_rx env s).1 = if env.onStopRaises then some PyExc.hookError else none) ∧
    (stop_rx env s).2.receiver = false ∧
    ((stop_rx env s).2.events =
       s.events ++ [Ev.onStop, Ev.shutRd] ++ optLog env.shutRdErr
         ++ (if s.transmitter then [] else [Ev.sockClose])) ∧
    ((stop_rx env s).2.events.count Ev.onStop = s.events.count Ev.onStop + 1) ∧
    (s.transmitter = false → (stop_rx env s).2.socket = false) ∧
    stop_rx env (stop_rx env s).2 = (none, (stop_rx env s).2) := by
  rw [stop_rx_char env s hT hR hC hS hr]
  have hc := count_optLog env.shutRdErr Ev.onStop (fun e => by simp)
  cases htx : s.transmitter <;>
    simp [htx, List.count_append, hc, List.count_cons] <;>
      exact stop_rx_noop env _ (by simp [hR]) (by simp)

/-- C3 witness at a concrete environment and the post-construction state. -/
theorem stop_rx_hook_then_shutdown_w :
    (stop_rx (Env.mk none none none none false) initState).2.receiver = false :=
  (stop_rx_hook_then_shutdown ⟨none, none, none, none, false⟩ initState
    rfl rfl rfl rfl rfl).2.1

/-- C4: `stop_tx()` on a transceiver whose transmitter reference is live
returns normally, shuts down the socket's send direction (trace `shutWr`) and
clears the transmitter reference whatever the shutdown call raises (benign
errors included), triggering `close()` exactly when this leaves the
transceiver fully stopped with no close in progress; a second `stop_tx()`
changes nothing, and `stop_tx()` on a transceiver whose transmitter reference
is already null is a no-op. -/
theorem stop_tx_idempotent (env : Env) (s : XState)
    (hT : s.txLocked = false) (hR : s.rxLocked = false)
    (hC : s.closeLocked = false) (hS : s.socket = true) :
    (s.transmitter = true →
       (stop_tx env s).1 = none ∧
       (stop_tx env s).2.transmitter = false ∧
       ((stop_tx env s).2.events =
          s.events ++ [Ev.shutWr] ++ optLog env.shutWrErr
            ++ (if s.receiver then [] else [Ev.sockClose])) ∧
       (s.receiver = true → (stop_tx env s).2.socket = true) ∧
       (s.receiver = false → (stop_tx env s).2.socket = false) ∧
       stop_tx env (stop_tx env s).2 = (none, (stop_tx env s).2)) ∧
    (s.transmitter = false → stop_tx env s = (none, s)) := by
  refine ⟨fun hM => ?_, fun hM => stop_tx_noop env s hT hM⟩
  rw [stop_tx_char env s hT hR hC hS hM]
  cases hrx : s.receiver <;>
    simp [hrx, hS] <;>
      exact stop_tx_noop env _ (by simp [hT]) (by simp)

/-- C4 witness at a concrete environment and the post-construction state. -/
theorem stop_tx_idempotent_w :
    (stop_tx (Env.mk none none none none false) initState).2.transmitter = false :=
  ((stop_tx_idempotent ⟨none, none, none, none, false⟩ initState
    rfl rfl rfl rfl).1 rfl).2.1

/-- C5: after `stop_tx()` has completed, any `transmit(data...)` call raises
(`self.transmitter` is `None`, so the attribute access fails) and the state —
in particular the trace of delivered payloads — is unchanged: nothing is ever
sent. -/
theorem transmit_after_stop_tx (env env' : Env) (data : List (List Nat))
    (s : XState) (hT : s.txLocked = false) (hR : s.rxLocked = false)
    (hC : s.closeLocked = false) (hS : s.socket = true)
    (hM : s.transmitter = true) :
    transmit env' data (stop_tx env s).2 =
      (some PyExc.attributeError, (stop_tx env s).2) := by
  rw [stop_tx_char env s hT hR hC hS hM]
  cases hrx : s.receiver <;> simp [hrx, transmit]

/-- C5 witness at a concrete environment and the post-construction state. -/
theorem transmit_after_stop_tx_w :
    transmit (Env.mk none none none none false) [[7]]
        (stop_tx (Env.mk none none none none false) initState).2 =
      (some PyExc.attributeError,
       (stop_tx (Env.mk none none none none false) initState).2) :=
  transmit_after_stop_tx ⟨none, none, none, none, false⟩
    ⟨none, none, none, none, false⟩ [[7]] initState rfl rfl rfl rfl rfl

/-- An environment in which the (overridden) `on_stop` hook raises and every
socket call succeeds. -/
def envHookFails : Env := ⟨none, none, none, none, true⟩

/-- An environment in which only `socket.close()` fails, with the non-benign
errno 13 (`EACCES`). -/
def envCloseFails : Env := ⟨none, none, some 13, none, false⟩

/-- C6 counterexample: (i) when the `on_stop()` hook fails, the hook's
exception propagates out of `close()` and the socket handle is left set, so
`close()` neither always completes nor always clears its reference; (ii) a
non-benign `socket.error` (errno 13) raised by `socket.close()` is swallowed
by `close()` silently — no error-log record is produced — so non-benign errors
from the close call are not logged. -/
theorem teardown_propagation_cex :
    ((close envHookFails initState).1 = some PyExc.hookError ∧
       (close envHookFails initState).2.socket = true) ∧
    ((close envCloseFails initState).1 = none ∧
       (close envCloseFails initState).2.events.count (Ev.logErr 13) = 0) := by
  decide

/-- C6 (amended): during teardown, socket errors with errno `EBADF` or
`ENOTCONN` raised by the two `shutdown` calls are swallowed silently and any
other errno there is logged but not raised, while `close()` swallows every
`socket.error` from `socket.close()` silently (nothing logged, nothing
raised); `stop_tx()` always completes and clears the transmitter reference,
and `stop_rx()` shuts the read direction down and clears the receiver
reference even when `on_stop()` fails; but an `on_stop()` failure propagates:
`stop_rx()` re-raises it after its cleanup, and a `close()` that runs such a
`stop_rx()` raises too, leaving the socket handle set. When the hook does not
raise, all three teardown calls return normally and clear their references
under every socket-error behaviour. -/
theorem teardown_error_policy (env : Env) (s : XState)
    (hT : s.txLocked = false) (hR : s.rxLocked = false)
    (hC : s.closeLocked = false) (hS : s.socket = true)
    (hM : s.transmitter = true) (hr : s.receiver = true) :
    (stop_tx env s).1 = none ∧
    (stop_tx env s).2.transmitter = false ∧
    (stop_rx env s).2.receiver = false ∧
    ((stop_rx env s).2.events.count Ev.shutRd = s.events.count Ev.shutRd + 1) ∧
    (∀ e, env.shutWrErr = some e → benign e = false →
       (stop_tx env s).2.events.count (Ev.logErr e)
         = s.events.count (Ev.logErr e) + 1) ∧
    (∀ e, env.shutWrErr = some e → benign e = true →
       (stop_tx env s).2.events = s.events ++ [Ev.shutWr]) ∧
    (∀ e, env.shutRdErr = some e → benign e = false →
       (stop_rx env s).2.events.count (Ev.logErr e)
         = s.events.count (Ev.logErr e) + 1) ∧
    (∀ e, env.shutRdErr = some e → benign e = true →
       (stop_rx env s).2.events = s.events ++ [Ev.onStop, Ev.shutRd]) ∧
    (env.onStopRaises = false →
       (stop_rx env s).1 = none ∧ (close env s).1 = none ∧
       (close env s).2.socket = false) ∧
    (∀ e, env.shutWrErr = none → env.shutRdErr = none → env.closeErr = some e →
       env.onStopRaises = false →
       (close env s).2.events.count (Ev.logErr e) = s.events.count (Ev.logErr e)) ∧
    (env.onStopRaises = true →
       (stop_rx env s).1 = some PyExc.hookError ∧
       (close env s).1 = some PyExc.hookError ∧
       (close env s).2.socket = true) := by
  rw [stop_tx_char env s hT hR hC hS hM, stop_rx_char env s hT hR hC hS hr,
      close_char env s hT hR hC hS]
  have hrd := count_optLog env.shutRdErr Ev.shutRd (fun e => by simp)
  refine ⟨by simp, by simp [hr], by simp [hM], ?_, fun e he hb => ?_,
          fun e he hb => ?_, fun e he hb => ?_, fun e he hb => ?_,
          fun hk => ?_, fun e hw hd he hk => ?_, fun hk => ?_⟩
  · simp [hM, List.count_append, List.count_cons, hrd]
  · simp [hr, he, optLog, hb, List.count_append, List.count_cons]
  · simp [hr, he, optLog, hb]
  · simp [hM, he, optLog, hb, List.count_append, List.count_cons]
  · simp [hM, he, optLog, hb]
  · simp [hk, hr]
  · simp [hk, hr, hM, hw, hd, optLog, List.count_append, List.count_cons]
  · simp [hk, hr, hS]

/-- C6 (amended) witness at a concrete environment (benign `EBADF` on the
write shutdown, non-benign errno 5 on the read shutdown) and the
post-construction state. -/
theorem teardown_error_policy_w :
    (stop_tx (Env.mk (some 9) (some 5) none none false) initState).1 = none :=
  (teardown_error_policy ⟨some 9, some 5, none, none, false⟩ initState
    rfl rfl rfl rfl rfl rfl).1

/-! ## `parse_authority` lemmas -/

/-- `rfind` misses: a character that does not occur yields `-1`. -/
theorem pyRFind_of_not_mem (c : Char) :
    ∀ s : List Char, c ∉ s → pyRFind s c = -1
  | [], _ => rfl
  | x :: xs, h => by
    have hx : ¬x = c := fun hxc => h (hxc ▸ List.mem_cons_self x xs)
    have ih := pyRFind_of_not_mem c xs (fun hm => h (List.mem_cons_of_mem x hm))
    simp [pyRFind, ih, hx]

/-- `rfind` on a string whose last occurrence of `c` separates `xs` from `ys`
returns the position of that occurrence. -/
theorem pyRFind_append (c : Char) (ys : List Char) (hys : c ∉ ys) :
    ∀ xs : List Char, pyRFind (xs ++ c :: ys) c = xs.length
  | [] => by simp [pyRFind, pyRFind_of_not_mem c ys hys]
  | x :: xs => by
    have ih := pyRFind_append c ys hys xs
    have hne : ¬((xs.length : Int) = -1) := by omega
    simp [pyRFind, ih, hne]

/-- `find` misses: a character that does not occur yields `-1`. -/
theorem pyFind_of_not_mem (c : Char) :
    ∀ s : List Char, c ∉ s → pyFind s c = -1
  | [], _ => rfl
  | x :: xs, h => by
    have hx : ¬x = c := fun hxc => h (hxc ▸ List.mem_cons_self x xs)
    have ih := pyFind_of_not_mem c xs (fun hm => h (List.mem_cons_of_mem x hm))
    simp [pyFind, ih, hx]

/-- `find` on a string whose first occurrence of `c` separates `xs` from `ys`
returns the position of that occurrence. -/
theorem pyFind_append (c : Char) (ys : List Char) :
    ∀ xs : List Char, c ∉ xs → pyFind (xs ++ c :: ys) c = xs.length
  | [], _ => by simp [pyFind]
  | x :: xs, h => by
    have hx : ¬x = c := fun hxc => h (hxc ▸ List.mem_cons_self x xs)
    have ih := pyFind_append c ys xs (fun hm => h (List.mem_cons_of_mem x hm))
    have hne : ¬((xs.length : Int) = -1) := by omega
    simp [pyFind, ih, hx, hne]

/-- C8: on a `"user@host:port"`-shaped authority whose host part contains no
`'@'` or `':'` and whose port part is a non-empty decimal string (containing
no `'@'`), `parse_authority` returns the text before the last `'@'` as user
info, the text between that `'@'` and the `':'` as host, and the decimal
value of the text after the `':'` as port; and on a `"user@host"`-shaped
authority with no `':'` after the host, the returned port is `None`. -/
theorem parse_authority_user_host_port (u h pd : List Char)
    (hha : '@' ∉ h) (hhc : ':' ∉ h) (hpa : '@' ∉ pd)
    (hne : pd ≠ []) (hdig : ∀ c ∈ pd, c.isDigit) :
    parse_authority (some (u ++ '@' :: (h ++ ':' :: pd))) =
      some (some u, some h, some (decVal pd)) ∧
    parse_authority (some (u ++ '@' :: h)) = some (some u, some h, none) := by
  constructor
  · have hmem : '@' ∉ h ++ ':' :: pd := by
      simp [List.mem_append, List.mem_cons]
      exact ⟨fun hm => hha hm, fun hm => hpa hm⟩
    have hp : pyRFind (u ++ '@' :: (h ++ ':' :: pd)) '@' = u.length :=
      pyRFind_append '@' (h ++ ':' :: pd) hmem u
    have hq : pyFind (h ++ ':' :: pd) ':' = h.length := pyFind_append ':' pd h hhc
    have hdrop : (u ++ '@' :: (h ++ ':' :: pd)).drop (u.length + 1)
        = h ++ ':' :: pd := by
      have : u ++ '@' :: (h ++ ':' :: pd) = (u ++ ['@']) ++ (h ++ ':' :: pd) := by
        simp
      rw [this, List.drop_left' (by simp)]
    have htake : (u ++ '@' :: (h ++ ':' :: pd)).take (u.length + 1 + h.length)
        = u ++ '@' :: h := by
      have : u ++ '@' :: (h ++ ':' :: pd) = (u ++ '@' :: h) ++ (':' :: pd) := by
        simp
      rw [this, List.take_left' (by simp; omega)]
    have hdropPort : (u ++ '@' :: (h ++ ':' :: pd)).drop (u.length + 1 + h.length + 1)
        = pd := by
      have : u ++ '@' :: (h ++ ':' :: pd) = ((u ++ '@' :: h) ++ [':']) ++ pd := by
        simp
      rw [this, List.drop_left' (by simp; omega)]
    have hInt : pyIntDec pd = some (decVal pd) := by
      simp [pyIntDec, hne, List.all_eq_true.mpr hdig]
    simp only [parse_authority, hp, pyFindFrom]
    have h1 : ¬((u.length : Int) = -1) := by omega
    have h2 : ((u.length : Int) + 1).toNat = u.length + 1 := by omega
    rw [if_neg h1, h2, hdrop, hq]
    have h3 : ¬((h.length : Int) = -1) := by omega
    rw [if_neg h3]
    have h4 : ¬((u.length + 1 : Nat) + (h.length : Int) = -1) := by omega
    rw [if_neg h4]
    have h5 : ((u.length + 1 : Nat) + (h.length : Int)).toNat
        = u.length + 1 + h.length := by omega
    rw [h5, hdropPort, hInt, htake]
    have h6 : ((u.length : Int)).toNat = u.length := by omega
    rw [h6, List.take_left]
    have h7 : (u ++ '@' :: h).drop (u.length + 1) = h := by
      have : u ++ '@' :: h = (u ++ ['@']) ++ h := by simp
      rw [this, List.drop_left' (by simp)]
    rw [h7]
  · have hp : pyRFind (u ++ '@' :: h) '@' = u.length :=
      pyRFind_append '@' h hha u
    have hdrop : (u ++ '@' :: h).drop (u.length + 1) = h := by
      have : u ++ '@' :: h = (u ++ ['@']) ++ h := by simp
      rw [this, List.drop_left' (by simp)]
    have hq : pyFind h ':' = -1 := pyFind_of_not_mem ':' h hhc
    simp only [parse_authority, hp, pyFindFrom]
    have h1 : ¬((u.length : Int) = -1) := by omega
    have h2 : ((u.length : Int) + 1).toNat = u.length + 1 := by omega
    rw [if_neg h1, h2, hdrop, hq]
    have h6 : ((u.length : Int)).toNat = u.length := by omega
    simp [h6, List.take_left]

/-- C8 witness on the concrete authority `"u@ho:42"`. -/
theorem parse_authority_user_host_port_w :
    parse_authority (some (['u'] ++ '@' :: (['h', 'o'] ++ ':' :: ['4', '2'])))
      = some (some ['u'], some ['h', 'o'], some 42) :=
  (parse_authority_user_host_port ['u'] ['h', 'o'] ['4', '2']
    (by decide) (by decide) (by decide) (by decide) (by decide)).1

end Shortwave
